import Mathlib

/-!
Shallow embedding of `src/app.py`, a Flask service template instrumented with
AWS X-Ray tracing and structured JSON logging.  Pure functions of the source
are translated to Lean functions; the random source is modelled by the unit
draws (`random.random()` values in `[0,1)`) the code consumes, wall-clock
reads by explicit rational arguments, the logger by the list of emitted log
calls, and the X-Ray recorder by the list of recorder operations performed.
-/

namespace FlaskXRay

/-- Python logging levels used by the application. -/
inductive LogLevel
  | debug
  | info
  | warning
  | error
deriving DecidableEq, BEq

/-- Scalar values appearing in `extra={...}` dictionaries and JSON log output. -/
inductive PyVal
  | str (s : String)
  | int (n : Int)
deriving DecidableEq, BEq

/-- One `logger.<level>(message, extra={...})` call, as emitted by app.py. -/
structure LogCall where
  level : LogLevel
  message : String
  extra : List (String × PyVal)
deriving DecidableEq, BEq

/-- The single-quote character used inside the f-string log messages. -/
def squote : String := String.mk [Char.ofNat 39]

/-- Wrap a string in single quotes, as the f-strings of app.py do. -/
def pyq (s : String) : String := squote ++ s ++ squote

/-- X-Ray recorder operations performed by the simulate wrappers:
entering `xray_recorder.in_subsegment(...)`, calling
`current_subsegment().add_exception(...)`, and the context-manager exit that
ends the subsegment. -/
inductive TraceOp
  | openSub (name : String)
  | addException (msg : String)
  | closeSub
deriving DecidableEq, BEq

/-- The dict returned by the simulate wrappers: a `"status"` entry plus one
further key/value pair (`"operation"` for the database wrapper, `"api"` for
the external-API wrapper). -/
structure OperationResult where
  status : String
  resultKey : String
  resultVal : String
deriving DecidableEq, BEq

/-- Observable outcome of one simulate-wrapper call: the `time.sleep` duration,
the log calls, the X-Ray recorder operations, and the returned dict. -/
structure SimOutcome where
  sleep : ℚ
  logs : List LogCall
  traceOps : List TraceOp
  result : OperationResult
deriving DecidableEq

/-- `simulate_db_operation` (src/app.py lines 152-186).  The random source is
the two unit draws the call consumes in order: `u0` for
`random.uniform(0.05, 0.2)` (CPython computes `a + (b-a)*random()`) and `u1`
for `random.random()`.  With X-Ray disabled no recorder operation happens;
with X-Ray enabled the body runs inside
`xray_recorder.in_subsegment('database_<name>')`, whose exit closes the
subsegment on every path. -/
def simulate_db_operation (enableXray : Bool) (operation_name : String)
    (failure_rate u0 u1 : ℚ) : SimOutcome :=
  if enableXray = false then
    let latency : ℚ := 1/20 + (1/5 - 1/20) * u0
    if u1 < failure_rate then
      ⟨latency,
        [⟨LogLevel.error, "Database operation " ++ pyq operation_name ++ " failed", []⟩],
        [], ⟨"error", "operation", operation_name⟩⟩
    else
      ⟨latency,
        [⟨LogLevel.info, "Database operation " ++ pyq operation_name ++ " completed", []⟩],
        [], ⟨"success", "operation", operation_name⟩⟩
  else
    let latency : ℚ := 1/20 + (1/5 - 1/20) * u0
    if u1 < failure_rate then
      ⟨latency,
        [⟨LogLevel.error, "Database operation " ++ pyq operation_name ++ " failed", []⟩],
        [TraceOp.openSub ("database_" ++ operation_name),
         TraceOp.addException ("DB operation " ++ operation_name ++ " failure"),
         TraceOp.closeSub],
        ⟨"error", "operation", operation_name⟩⟩
    else
      ⟨latency,
        [⟨LogLevel.info, "Database operation " ++ pyq operation_name ++ " completed", []⟩],
        [TraceOp.openSub ("database_" ++ operation_name), TraceOp.closeSub],
        ⟨"success", "operation", operation_name⟩⟩

/-- `simulate_external_api_call` (src/app.py lines 189-223), modelled the same
way; its latency range is `random.uniform(0.1, 0.3)` and its returned dict
uses the key `"api"`. -/
def simulate_external_api_call (enableXray : Bool) (api_name : String)
    (failure_rate u0 u1 : ℚ) : SimOutcome :=
  if enableXray = false then
    let latency : ℚ := 1/10 + (3/10 - 1/10) * u0
    if u1 < failure_rate then
      ⟨latency,
        [⟨LogLevel.error, "API call to " ++ pyq api_name ++ " failed", []⟩],
        [], ⟨"error", "api", api_name⟩⟩
    else
      ⟨latency,
        [⟨LogLevel.info, "API call to " ++ pyq api_name ++ " completed", []⟩],
        [], ⟨"success", "api", api_name⟩⟩
  else
    let latency : ℚ := 1/10 + (3/10 - 1/10) * u0
    if u1 < failure_rate then
      ⟨latency,
        [⟨LogLevel.error, "API call to " ++ pyq api_name ++ " failed", []⟩],
        [TraceOp.openSub ("external_api_" ++ api_name),
         TraceOp.addException ("API " ++ api_name ++ " failure"),
         TraceOp.closeSub],
        ⟨"error", "api", api_name⟩⟩
    else
      ⟨latency,
        [⟨LogLevel.info, "API call to " ++ pyq api_name ++ " completed", []⟩],
        [TraceOp.openSub ("external_api_" ++ api_name), TraceOp.closeSub],
        ⟨"success", "api", api_name⟩⟩

/-- `add_annotation` (src/app.py lines 226-232).  The X-Ray recorder is
modelled by whether a current segment exists (`seg`) and by the outcome of the
underlying `put_annotation` call (`attach`): the `try/except Exception` block
turns a raising attach into a warning log.  The result is `Except.ok logs`
when the function returns normally and `Except.error` if an exception would
propagate to the caller. -/
def add_annotation (enableXray : Bool) (seg : Option Unit)
    (attach : Except String Unit) : Except String (List LogCall) :=
  if enableXray ∧ seg.isSome then
    match attach with
    | Except.ok _ => Except.ok []
    | Except.error m =>
        Except.ok [⟨LogLevel.warning, "Failed to add X-Ray annotation: " ++ m, []⟩]
  else Except.ok []

/-- `add_metadata` (src/app.py lines 235-241), modelled like ` add_annotation`;
the namespace/key/value arguments do not influence control flow. -/
def add_metadata (enableXray : Bool) (seg : Option Unit) (_ns _key _value : String)
    (attach : Except String Unit) : Except String (List LogCall) :=
  if enableXray ∧ seg.isSome then
    match attach with
    | Except.ok _ => Except.ok []
    | Except.error m =>
        Except.ok [⟨LogLevel.warning, "Failed to add X-Ray metadata: " ++ m, []⟩]
  else Except.ok []

/-- True when the call returned normally (no exception reached the caller). -/
def returnsNormally {α : Type} : Except String α → Bool
  | Except.ok _ => true
  | Except.error _ => false

/-- Modelled from the spec: an open subsegment of the Trace Segment Store
(the store itself lives in the aws_xray_sdk dependency, not under src/);
the id is the handle returned by `open_subsegment`. -/
structure Subseg where
  id : Nat
  name : String
deriving DecidableEq

/-- Modelled from the spec: the per-request Trace Segment Store, a stack of
open subsegments (head = top) plus a fresh-handle counter. -/
structure TraceStore where
  nextId : Nat
  stack : List Subseg
deriving DecidableEq

/-- Modelled from the spec: result of a `close_subsegment` call — either the
updated store or a `StackViolation`. -/
inductive CloseResult
  | ok (s : TraceStore)
  | stackViolation
deriving DecidableEq

/-- Modelled from the spec: `open_subsegment(name)` pushes a new subsegment on
the stack and returns its handle. -/
def open_subsegment (s : TraceStore) (name : String) : TraceStore × Nat :=
  (⟨s.nextId + 1, ⟨s.nextId, name⟩ :: s.stack⟩, s.nextId)

/-- Modelled from the spec: `close_subsegment(handle)` pops the top subsegment
when `handle` is the top of the stack and raises `StackViolation` otherwise. -/
def close_subsegment (s : TraceStore) (handle : Nat) : CloseResult :=
  match s.stack with
  | [] => CloseResult.stackViolation
  | top :: rest =>
      if top.id = handle then CloseResult.ok ⟨s.nextId, rest⟩
      else CloseResult.stackViolation

/-- The three ways control can leave the body of a simulate wrapper:
the success return, the simulated-failure return, and an exception raised
inside the body. -/
inductive ExitPath
  | success
  | simFailure
  | raised
deriving DecidableEq

/-- Stack effect of `simulate_db_operation` with tracing enabled
(src/app.py lines 172-186): `with xray_recorder.in_subsegment(...)` opens a
subsegment and its context-manager exit closes that same handle on every exit
path — the success return, the failure return (after `add_exception`, which
attaches to the top without popping it), and a propagating exception. -/
def simulate_db_stack (s : TraceStore) (operation_name : String)
    (e : ExitPath) : CloseResult :=
  match open_subsegment s ("database_" ++ operation_name) with
  | (s1, h) =>
    match e with
    | ExitPath.success => close_subsegment s1 h
    | ExitPath.simFailure => close_subsegment s1 h
    | ExitPath.raised => close_subsegment s1 h

/-- Stack effect of `simulate_external_api_call` with tracing enabled
(src/app.py lines 209-223), identical except for the subsegment name. -/
def simulate_api_stack (s : TraceStore) (api_name : String)
    (e : ExitPath) : CloseResult :=
  match open_subsegment s ("external_api_" ++ api_name) with
  | (s1, h) =>
    match e with
    | ExitPath.success => close_subsegment s1 h
    | ExitPath.simFailure => close_subsegment s1 h
    | ExitPath.raised => close_subsegment s1 h

/-- Lower-case hex digit for a value below 16, as Python renders UUIDs. -/
def hexDigit (n : Nat) : Char :=
  if n < 10 then Char.ofNat (48 + n) else Char.ofNat (87 + n)

/-- Big-endian fixed-width hex rendering of `v`. -/
def hexChars (v : Nat) (width : Nat) : List Char :=
  (List.range width).map fun i => hexDigit (v / 16 ^ (width - 1 - i) % 16)

/-- Clear the `width`-bit field of `b` starting at bit `pos`. -/
def clearBits (b : Nat) (pos width : Nat) : Nat :=
  b - b / 2 ^ pos % 2 ^ width * 2 ^ pos

/-- The 128-bit integer of `uuid.uuid4()` built from 128 random bits: CPython
forces the version field (bits 76-79) to 4 and the variant field (bits 62-63)
to binary 10. -/
def uuid4Int (bits : Nat) : Nat :=
  clearBits (clearBits (bits % 2 ^ 128) 76 4 + 4 * 2 ^ 76) 62 2 + 2 * 2 ^ 62

/-- `str(uuid.uuid4())`: the canonical 8-4-4-4-12 lower-case hex rendering of
the uuid4 integer built from the 128 random `bits`. -/
def uuid4String (bits : Nat) : String :=
  String.mk (hexChars (uuid4Int bits / 2 ^ 96) 8
    ++ Char.ofNat 45 :: hexChars (uuid4Int bits / 2 ^ 80 % 2 ^ 16) 4
    ++ Char.ofNat 45 :: hexChars (uuid4Int bits / 2 ^ 64 % 2 ^ 16) 4
    ++ Char.ofNat 45 :: hexChars (uuid4Int bits / 2 ^ 48 % 2 ^ 16) 4
    ++ Char.ofNat 45 :: hexChars (uuid4Int bits % 2 ^ 48) 12)

/-- Correlation-id resolution of `before_request` (src/app.py lines 96-99):
`request.headers.get('X-Request-ID')` is truthy exactly when the header is
present and non-empty; otherwise `str(uuid.uuid4())` is used. -/
def before_request_id (xRequestId : Option String) (freshUuid : String) : String :=
  match xRequestId with
  | some r => if r = "" then freshUuid else r
  | none => freshUuid

/-- Response-header assignment of `after_request` (src/app.py line 122):
`getattr(request, 'request_id', 'unknown')`. -/
def after_request_header (request_id : Option String) : String :=
  request_id.getD "unknown"

/-- Python `int()` truncation toward zero on a rational. -/
def pyTrunc (x : ℚ) : Int :=
  if 0 ≤ x then ⌊x⌋ else ⌈x⌉

/-- `duration_ms` of `after_request` (src/app.py line 119):
`int((time.time() - request.start_time) * 1000)`, with `startT` the recorded
start time and `now` the completion-time clock read. -/
def duration_ms (startT now : ℚ) : Int :=
  pyTrunc ((now - startT) * 1000)

/-- The `before_request` incoming-request log call (src/app.py lines 105-111). -/
def receivedLog (rid method path ip : String) : LogCall :=
  ⟨LogLevel.info, "Received request: " ++ method ++ " " ++ path,
    [("request_id", PyVal.str rid), ("metadata_method", PyVal.str method),
     ("metadata_path", PyVal.str path), ("metadata_ip", PyVal.str ip)]⟩

/-- The `after_request` completion log call (src/app.py lines 125-135). -/
def completionLog (rid method path : String) (status dur : Int) (ip : String) : LogCall :=
  ⟨LogLevel.info, "Request completed: " ++ method ++ " " ++ path,
    [("request_id", PyVal.str rid), ("metadata_method", PyVal.str method),
     ("metadata_path", PyVal.str path), ("metadata_status_code", PyVal.int status),
     ("metadata_duration_ms", PyVal.int dur), ("metadata_ip", PyVal.str ip)]⟩

/-- The JSON error body returned by `handle_exception` together with its HTTP
status. -/
structure ErrorResponse where
  errorMsg : String
  request_id : String
  status : Int
deriving DecidableEq

/-- `handle_exception` (src/app.py lines 139-147): one `logger.exception`
call — an error-level record carrying the exception text and the
`request_id` — no X-Ray recorder operation of any kind, and the JSON body
`{"error": str(e), "request_id": ...}` with status 500. -/
def handle_exception (excMsg : String) (request_id : Option String) :
    LogCall × List TraceOp × ErrorResponse :=
  (⟨LogLevel.error, "Unhandled exception: " ++ excMsg,
      [("request_id", PyVal.str (request_id.getD "unknown"))]⟩,
   [],
   ⟨excMsg, request_id.getD "unknown", 500⟩)

/-- How the route handler ends: a normal response with a status code, or an
uncaught exception intercepted by the error boundary. -/
inductive HandlerOutcome
  | ok (status : Int)
  | raises (msg : String)
deriving DecidableEq

/-- Per-request observable outcome of the middleware pipeline. -/
structure PipelineResult where
  logs : List LogCall
  responseStatus : Int
  responseXRequestId : String
  boundaryTraceOps : List TraceOp
deriving DecidableEq

/-- One request through app.py: `before_request` resolves the correlation id,
records the start time and logs the incoming request; the handler either
returns or raises into `handle_exception` (which produces the 500 response);
`after_request` then always runs on the outgoing response, setting the
`X-Request-ID` header and writing the completion log. -/
def processRequest (hdr : Option String) (freshUuid : String) (startT now : ℚ)
    (method path ip : String) (outcome : HandlerOutcome) : PipelineResult :=
  match outcome with
  | HandlerOutcome.ok st =>
      ⟨[receivedLog (before_request_id hdr freshUuid) method path ip,
        completionLog (before_request_id hdr freshUuid) method path st
          (duration_ms startT now) ip],
       st,
       after_request_header (some (before_request_id hdr freshUuid)),
       []⟩
  | HandlerOutcome.raises m =>
      ⟨[receivedLog (before_request_id hdr freshUuid) method path ip,
        (handle_exception m (some (before_request_id hdr freshUuid))).1,
        completionLog (before_request_id hdr freshUuid) method path
          (handle_exception m (some (before_request_id hdr freshUuid))).2.2.status
          (duration_ms startT now) ip],
       (handle_exception m (some (before_request_id hdr freshUuid))).2.2.status,
       after_request_header (some (before_request_id hdr freshUuid)),
       (handle_exception m (some (before_request_id hdr freshUuid))).2.1⟩

/-- A completion record: info level and a `metadata_duration_ms` field —
only the `after_request` completion log call has both. -/
def isCompletionLog (l : LogCall) : Bool :=
  decide (l.level = LogLevel.info) &&
    l.extra.any fun kv => kv.fst == "metadata_duration_ms"

/-- `attr.replace('metadata_', '')` on the character list, with fuel; Python
`str.replace` removes non-overlapping occurrences left to right and does not
rescan the text it has already produced. -/
def removeMetaAux : Nat → List Char → List Char
  | 0, l => l
  | _ + 1, [] => []
  | fuel + 1, c :: rest =>
      if List.take 9 (c :: rest) = "metadata_".data then
        removeMetaAux fuel (List.drop 9 (c :: rest))
      else c :: removeMetaAux fuel rest

/-- Python `attr.replace('metadata_', '')` (src/app.py line 45). -/
def pyReplaceMeta (s : String) : String :=
  String.mk (removeMetaAux s.data.length s.data)

/-- Python dict assignment `d[k] = v` on an insertion-ordered association
list: replaces the value in place when the key exists, appends otherwise. -/
def setKey : List (String × PyVal) → String → PyVal → List (String × PyVal)
  | [], k, v => [(k, v)]
  | (k0, v0) :: t, k, v =>
      if k0 = k then (k, v) :: t else (k0, v0) :: setKey t k v

/-- Python dict lookup on the association list built by `setKey`. -/
def lookupKey : List (String × PyVal) → String → Option PyVal
  | [], _ => none
  | (k0, v) :: t, k => if k0 = k then some v else lookupKey t k

/-- The attributes of a `logging.LogRecord` that `JsonFormatter.format` reads:
`formatTime`, `levelname`, `getMessage()`, the optional `request_id`, and the
non-callable attributes visited by the `dir(record)` loop (in `dir` order,
which is sorted). -/
structure PyLogRecord where
  asctime : String
  levelname : String
  message : String
  request_id : Option String
  dirAttrs : List (String × PyVal)
deriving DecidableEq

/-- `JsonFormatter.format` (src/app.py lines 29-48): builds the base dict,
adds `request_id` when the record has one, then for every attribute whose
name starts with `metadata_` stores its value under
`attr.replace('metadata_', '')`. -/
def JsonFormatter_format (appName stage : String) (r : PyLogRecord) :
    List (String × PyVal) :=
  (r.dirAttrs.foldl
    (fun acc av =>
      if List.isPrefixOf "metadata_".data av.fst.data then
        setKey acc (pyReplaceMeta av.fst) av.snd
      else acc)
    (match r.request_id with
     | some rid =>
         setKey [("timestamp", PyVal.str r.asctime), ("level", PyVal.str r.levelname),
                 ("message", PyVal.str r.message), ("app_name", PyVal.str appName),
                 ("stage", PyVal.str stage)] "request_id" (PyVal.str rid)
     | none =>
         [("timestamp", PyVal.str r.asctime), ("level", PyVal.str r.levelname),
          ("message", PyVal.str r.message), ("app_name", PyVal.str appName),
          ("stage", PyVal.str stage)]))

/-- Claim C3: for any fixed random source (unit draws `u0`, `u1` with
`u1 = random() ∈ [0,1)`), any operation name and either tracing state, both
simulate wrappers always return status "error" at `failure_rate = 1.0` and
always return status "success" at `failure_rate = 0.0`. -/
theorem c3_failure_rate_extremes (enableXray : Bool) (name : String)
    (u0 u1 : ℚ) (h0 : 0 ≤ u1) (h1 : u1 < 1) :
    (simulate_db_operation enableXray name 1 u0 u1).result.status = "error" ∧
    (simulate_db_operation enableXray name 0 u0 u1).result.status = "success" ∧
    (simulate_external_api_call enableXray name 1 u0 u1).result.status = "error" ∧
    (simulate_external_api_call enableXray name 0 u0 u1).result.status = "success" := by
  cases enableXray <;>
    simp [simulate_db_operation, simulate_external_api_call, h1, not_lt.mpr h0]

/-- Witness for C3 at the concrete draw `u1 = 1/2` of a fixed random source. -/
theorem c3_failure_rate_extremes_witness :
    (simulate_db_operation true "x" 1 (1/2) (1/2)).result.status = "error" ∧
    (simulate_db_operation true "x" 0 (1/2) (1/2)).result.status = "success" ∧
    (simulate_external_api_call true "x" 1 (1/2) (1/2)).result.status = "error" ∧
    (simulate_external_api_call true "x" 0 (1/2) (1/2)).result.status = "success" :=
  c3_failure_rate_extremes true "x" (1/2) (1/2) (by norm_num) (by norm_num)

/-- Claim C4: for every operation name, failure rate and fixed random source,
running a simulate wrapper with tracing disabled yields the same sleep
duration, the same log calls (level and message) and the same returned result
as running it with tracing enabled; the disabled run performs no X-Ray
recorder operation, while the enabled run opens a subsegment and closes it. -/
theorem c4_tracing_toggle_equivalence (name : String) (rate u0 u1 : ℚ) :
    ((simulate_db_operation false name rate u0 u1).sleep =
        (simulate_db_operation true name rate u0 u1).sleep ∧
      (simulate_db_operation false name rate u0 u1).logs =
        (simulate_db_operation true name rate u0 u1).logs ∧
      (simulate_db_operation false name rate u0 u1).result =
        (simulate_db_operation true name rate u0 u1).result ∧
      (simulate_db_operation false name rate u0 u1).traceOps = [] ∧
      ((simulate_db_operation true name rate u0 u1).traceOps.head? =
          some (TraceOp.openSub ("database_" ++ name)) ∧
        (simulate_db_operation true name rate u0 u1).traceOps.getLast? =
          some TraceOp.closeSub)) ∧
    ((simulate_external_api_call false name rate u0 u1).sleep =
        (simulate_external_api_call true name rate u0 u1).sleep ∧
      (simulate_external_api_call false name rate u0 u1).logs =
        (simulate_external_api_call true name rate u0 u1).logs ∧
      (simulate_external_api_call false name rate u0 u1).result =
        (simulate_external_api_call true name rate u0 u1).result ∧
      (simulate_external_api_call false name rate u0 u1).traceOps = [] ∧
      ((simulate_external_api_call true name rate u0 u1).traceOps.head? =
          some (TraceOp.openSub ("external_api_" ++ name)) ∧
        (simulate_external_api_call true name rate u0 u1).traceOps.getLast? =
          some TraceOp.closeSub)) := by
  by_cases h : u1 < rate <;>
    simp [simulate_db_operation, simulate_external_api_call, h]

/-- Counterexample to claim C5 as stated: the external-API wrapper does not
return a dict of shape `{status, operation: name}` — its second key is
`"api"`, not `"operation"` (src/app.py lines 205, 207, 220, 223). -/
theorem c5_counterexample_api_key :
    (simulate_external_api_call true "payment" (1/2) 0 0).result.resultKey = "api" ∧
    "api" ≠ "operation" := by
  constructor
  · norm_num [simulate_external_api_call]
  · decide

/-- Claim C5 as amended: every simulate call returns
`{status: success|error}` plus the operation name under the wrapper's own
key — `"operation"` for the database wrapper but `"api"` for the external-API
wrapper — on both the success and the failure outcome, with either tracing
state. -/
theorem c5_operation_result_shape (enableXray : Bool) (name : String)
    (rate u0 u1 : ℚ) :
    (simulate_db_operation enableXray name rate u0 u1).result =
      ⟨if u1 < rate then "error" else "success", "operation", name⟩ ∧
    (simulate_external_api_call enableXray name rate u0 u1).result =
      ⟨if u1 < rate then "error" else "success", "api", name⟩ := by
  cases enableXray <;> by_cases h : u1 < rate <;>
    simp [simulate_db_operation, simulate_external_api_call, h]

/-- Claim C6: ` add_annotation` and ` add_metadata` never propagate an
exception, for every tracing state, segment state and outcome of the
underlying attach call; with tracing disabled they are no-ops, and a failing
attach is turned into a single warning log. -/
theorem c6_observability_calls_never_raise (enableXray : Bool) (seg : Option Unit)
    (attach : Except String Unit) (ns key value m : String) :
    returnsNormally ( add_annotation enableXray seg attach) = true ∧
    returnsNormally ( add_metadata enableXray seg ns key value attach) = true ∧
    add_annotation false seg attach = Except.ok [] ∧
    add_metadata false seg ns key value attach = Except.ok [] ∧
    add_annotation true (some ()) (Except.error m) =
      Except.ok [⟨LogLevel.warning, "Failed to add X-Ray annotation: " ++ m, []⟩] ∧
    add_metadata true (some ()) ns key value (Except.error m) =
      Except.ok [⟨LogLevel.warning, "Failed to add X-Ray metadata: " ++ m, []⟩] := by
  cases enableXray <;> cases seg <;> cases attach <;>
    simp [ add_annotation, add_metadata, returnsNormally]

/-- Claim C2: on every exit path of an instrumented wrapper (success return,
simulated-failure return, raised exception) the subsegment opened by the
wrapper is closed again, the close targets exactly the subsegment that was
opened (strict LIFO: the store's stack is restored unchanged, with no
`StackViolation`), and a `close_subsegment` on a handle that is not the top
of the stack yields `StackViolation`. -/
theorem c2_subsegment_stack_balanced (s : TraceStore) (op : String)
    (e : ExitPath) (handle : Nat) (top : Subseg) (rest : List Subseg) :
    simulate_db_stack s op e = CloseResult.ok ⟨s.nextId + 1, s.stack⟩ ∧
    simulate_api_stack s op e = CloseResult.ok ⟨s.nextId + 1, s.stack⟩ ∧
    (s.stack = top :: rest → handle ≠ top.id →
      close_subsegment s handle = CloseResult.stackViolation) := by
  refine ⟨?_, ?_, ?_⟩
  · cases e <;> simp [simulate_db_stack, open_subsegment, close_subsegment]
  · cases e <;> simp [simulate_api_stack, open_subsegment, close_subsegment]
  · intro h1 h2
    simp [close_subsegment, h1, Ne.symm h2]

/-- Witness for C2 at a concrete store whose top subsegment has id 3 and a
non-top handle 7. -/
theorem c2_subsegment_stack_balanced_witness :
    simulate_db_stack ⟨5, [⟨3, "a"⟩]⟩ "q" ExitPath.raised =
      CloseResult.ok ⟨5 + 1, [⟨3, "a"⟩]⟩ ∧
    simulate_api_stack ⟨5, [⟨3, "a"⟩]⟩ "q" ExitPath.raised =
      CloseResult.ok ⟨5 + 1, [⟨3, "a"⟩]⟩ ∧
    (TraceStore.stack ⟨5, [⟨3, "a"⟩]⟩ = ⟨3, "a"⟩ :: [] → 7 ≠ Subseg.id ⟨3, "a"⟩ →
      close_subsegment ⟨5, [⟨3, "a"⟩]⟩ 7 = CloseResult.stackViolation) :=
  c2_subsegment_stack_balanced ⟨5, [⟨3, "a"⟩]⟩ "q" ExitPath.raised 7 ⟨3, "a"⟩ []

/-- Claim C1: the response header `X-Request-ID` always equals the resolved
correlation id; a present non-empty header value is taken verbatim as the
correlation id, while an absent or empty header yields the freshly generated
uuid4 string (rendered 8-4-4-4-12, 36 characters). -/
theorem c1_correlation_id_propagation (hdr : Option String) (r : String)
    (bits : Nat) (startT now : ℚ) (method path ip : String)
    (outcome : HandlerOutcome) :
    (processRequest hdr (uuid4String bits) startT now method path ip
        outcome).responseXRequestId = before_request_id hdr (uuid4String bits) ∧
    (hdr = some r → r ≠ "" → before_request_id hdr (uuid4String bits) = r) ∧
    before_request_id none (uuid4String bits) = uuid4String bits ∧
    before_request_id (some "") (uuid4String bits) = uuid4String bits ∧
    (uuid4String bits).length = 36 := by
  refine ⟨?_, ?_, rfl, rfl, ?_⟩
  · cases outcome <;> simp [processRequest, after_request_header]
  · intro h1 h2
    subst h1
    simp [before_request_id, h2]
  · simp [uuid4String, hexChars, String.length]

/-- Witness for C1 with the concrete header value "abc-123" and bits 0. -/
theorem c1_correlation_id_propagation_witness :
    before_request_id (some "abc-123") (uuid4String 0) = "abc-123" ∧
    (uuid4String 0).length = 36 :=
  ⟨(c1_correlation_id_propagation (some "abc-123") "abc-123" 0 0 0 "GET" "/health"
      "127.0.0.1" (HandlerOutcome.ok 200)).2.1 rfl (by decide),
   (c1_correlation_id_propagation (some "abc-123") "abc-123" 0 0 0 "GET" "/health"
      "127.0.0.1" (HandlerOutcome.ok 200)).2.2.2.2⟩

/-- Claim C9: the completion-log duration
`duration_ms = int((now - start_time) * 1000)` is a non-negative integer and
at most the elapsed wall-clock time in milliseconds. -/
theorem c9_duration_nonneg_and_bounded (startT now : ℚ) (h : startT ≤ now) :
    0 ≤ duration_ms startT now ∧
    ((duration_ms startT now : ℚ)) ≤ (now - startT) * 1000 := by
  have hx : (0 : ℚ) ≤ (now - startT) * 1000 :=
    mul_nonneg (sub_nonneg.mpr h) (by norm_num)
  constructor
  · simpa [duration_ms, pyTrunc, hx] using Int.floor_nonneg.mpr hx
  · simpa [duration_ms, pyTrunc, hx] using Int.floor_le ((now - startT) * 1000)

/-- Witness for C9 at start time 0 and completion time 3/2 seconds. -/
theorem c9_duration_nonneg_and_bounded_witness :
    0 ≤ duration_ms 0 (3/2) ∧
    ((duration_ms 0 (3/2) : ℚ)) ≤ ((3/2 : ℚ) - 0) * 1000 :=
  c9_duration_nonneg_and_bounded 0 (3/2) (by norm_num)

/-- Claim C8: every request emits exactly one completion log record — the
info-level `after_request` record carrying method, path, status code,
duration and remote address — on the normal path and on the error path alike
(the error boundary adds an error record but never suppresses the completion
record). -/
theorem c8_exactly_one_completion_log (hdr : Option String) (fresh : String)
    (startT now : ℚ) (method path ip : String) (outcome : HandlerOutcome) :
    (processRequest hdr fresh startT now method path ip
        outcome).logs.filter isCompletionLog =
      [completionLog (before_request_id hdr fresh) method path
        (processRequest hdr fresh startT now method path ip outcome).responseStatus
        (duration_ms startT now) ip] := by
  cases outcome <;>
    simp +decide [processRequest, isCompletionLog, receivedLog, completionLog,
      handle_exception, List.filter]

/-- Counterexample to claim C7 as stated: the error boundary
`handle_exception` performs no X-Ray recorder operation at all — in
particular it does not mark the current trace segment as errored (src/app.py
lines 139-147 contain no `xray_recorder` call). -/
theorem c7_counterexample_no_segment_marking :
    (handle_exception "boom" (some "abc")).2.1 = [] ∧
    TraceOp.addException "boom" ∉ (handle_exception "boom" (some "abc")).2.1 := by
  refine ⟨rfl, ?_⟩
  simp [handle_exception]

/-- Claim C7 as amended: for every uncaught failure escaping a handler, the
error boundary logs exactly one error-level record carrying the correlation
id and the failure detail and produces the JSON body
`{error: message, request_id: correlation id}` with status 500 — but it
performs no trace-segment operation (it does not mark the segment as
errored). -/
theorem c7_error_boundary_behavior (hdr : Option String) (fresh : String)
    (startT now : ℚ) (method path ip msg : String) :
    (processRequest hdr fresh startT now method path ip
        (HandlerOutcome.raises msg)).logs.filter
        (fun l => decide (l.level = LogLevel.error)) =
      [⟨LogLevel.error, "Unhandled exception: " ++ msg,
        [("request_id", PyVal.str (before_request_id hdr fresh))]⟩] ∧
    (processRequest hdr fresh startT now method path ip
        (HandlerOutcome.raises msg)).responseStatus = 500 ∧
    (processRequest hdr fresh startT now method path ip
        (HandlerOutcome.raises msg)).boundaryTraceOps = [] ∧
    (handle_exception msg (some (before_request_id hdr fresh))).2.2 =
      ⟨msg, before_request_id hdr fresh, 500⟩ := by
  refine ⟨?_, rfl, rfl, rfl⟩
  simp +decide [processRequest, receivedLog, completionLog, handle_exception,
    List.filter]

/-- Python dict lookup of a key right after assigning it finds the assigned
value. -/
theorem lookupKey_setKey (m : List (String × PyVal)) (k : String) (v : PyVal) :
    lookupKey (setKey m k v) k = some v := by
  induction m with
  | nil => simp [setKey, lookupKey]
  | cons kv t ih =>
      obtain ⟨k0, v0⟩ := kv
      by_cases h : k0 = k
      · simp [setKey, lookupKey, h]
      · simp [setKey, lookupKey, h, ih]

/-- Counterexample to claim C10 as stated: the attribute
`metadata_a_metadata_b` (i.e. `metadata_K` with `K = a_metadata_b`) is not
emitted under the key `a_metadata_b` — `attr.replace('metadata_', '')`
removes every occurrence, so the value lands under `a_b` instead. -/
theorem c10_counterexample_replace_all :
    lookupKey (JsonFormatter_format "FlaskXRayTemplate" "dev"
        ⟨"t", "INFO", "m", none, [("metadata_a_metadata_b", PyVal.str "v")]⟩)
      "a_metadata_b" = none ∧
    lookupKey (JsonFormatter_format "FlaskXRayTemplate" "dev"
        ⟨"t", "INFO", "m", none, [("metadata_a_metadata_b", PyVal.str "v")]⟩)
      "a_b" = some (PyVal.str "v") := by
  decide

/-- Claim C10 as amended: every record attribute whose name starts with
`metadata_` is emitted under the key obtained by removing every occurrence of
`metadata_` from the attribute name (for names containing the substring only
as their prefix this is the prefix-stripped key); consequently a
caller-supplied `metadata_K` whose resulting key collides with a base schema
field — e.g. `metadata_message` ↦ `message` — silently overwrites that base
field's value. -/
theorem c10_metadata_key_overwrite (appName stage : String) (r : PyLogRecord)
    (a : String) (v : PyVal) (h1 : r.dirAttrs = [(a, v)])
    (h2 : List.isPrefixOf "metadata_".data a.data = true) :
    lookupKey (JsonFormatter_format appName stage r) (pyReplaceMeta a) = some v ∧
    pyReplaceMeta "metadata_message" = "message" ∧
    pyReplaceMeta "metadata_a_metadata_b" = "a_b" := by
  have h2p : "metadata_".data <+: a.data := by simpa using h2
  refine ⟨?_, by decide, by decide⟩
  cases hrid : r.request_id <;>
    simp [JsonFormatter_format, h1, hrid, h2p, lookupKey_setKey]

/-- Witness for C10 (amended): a caller-supplied `metadata_message` extra
field overwrites the base `message` field of the serialized record. -/
theorem c10_metadata_key_overwrite_witness :
    lookupKey (JsonFormatter_format "FlaskXRayTemplate" "dev"
        ⟨"t", "INFO", "base", none, [("metadata_message", PyVal.str "clobbered")]⟩)
      (pyReplaceMeta "metadata_message") = some (PyVal.str "clobbered") ∧
    pyReplaceMeta "metadata_message" = "message" ∧
    pyReplaceMeta "metadata_a_metadata_b" = "a_b" :=
  c10_metadata_key_overwrite "FlaskXRayTemplate" "dev"
    ⟨"t", "INFO", "base", none, [("metadata_message", PyVal.str "clobbered")]⟩
    "metadata_message" (PyVal.str "clobbered") rfl (by decide)

end FlaskXRay
